import Mathlib

/-!
Shallow embedding of the ledger contract of the Neuro-Supply-Chain
repository (src/contracts/sources/supply_chain.move, module
supply_chain::supply_chain) together with proofs about it.

Modelling choices:
- Move u64 values carry no arithmetic in this module (only the comparison
  confidence_score <= 100), so they are embedded as Nat.
- Sui addresses and object UIDs are embedded as Nat.
- Move vector of u8 is List Nat; std::string::String is a wrapper around
  its validated UTF-8 byte vector, and string::utf8 is embedded as a
  function that fails (Move abort) exactly on invalid UTF-8 input.
- A Sui transaction either commits a new global state or aborts leaving
  the state untouched; an entry call is embedded as a function returning
  Except MoveAbort LedgerState.
- The global state records the shared ShipmentRegistry object, every
  Shipment object together with its owner address, and the stream of
  emitted events.
-/

namespace SupplyChain

/-- Is b a UTF-8 continuation byte (0x80-0xBF)? -/
def isCont (b : Nat) : Bool := 0x80 ≤ b && b ≤ 0xBF

/-- UTF-8 validity of a byte list, with explicit fuel (any fuel at least the
list length gives the true answer; each step consumes at least one byte).
Follows the standard Unicode well-formed byte-sequence table: no overlong
encodings, no surrogates, maximum code point U+10FFFF.  This is the check
performed by std::string::utf8 on the Move side. -/
def validUtf8Fuel : Nat → List Nat → Bool
  | _, [] => true
  | 0, _ :: _ => false
  | fuel + 1, b :: rest =>
    if b ≤ 0x7F then validUtf8Fuel fuel rest
    else if 0xC2 ≤ b && b ≤ 0xDF then
      match rest with
      | c1 :: r => isCont c1 && validUtf8Fuel fuel r
      | [] => false
    else if b == 0xE0 then
      match rest with
      | c1 :: c2 :: r => (0xA0 ≤ c1 && c1 ≤ 0xBF) && isCont c2 && validUtf8Fuel fuel r
      | _ => false
    else if (0xE1 ≤ b && b ≤ 0xEC) || b == 0xEE || b == 0xEF then
      match rest with
      | c1 :: c2 :: r => isCont c1 && isCont c2 && validUtf8Fuel fuel r
      | _ => false
    else if b == 0xED then
      match rest with
      | c1 :: c2 :: r => (0x80 ≤ c1 && c1 ≤ 0x9F) && isCont c2 && validUtf8Fuel fuel r
      | _ => false
    else if b == 0xF0 then
      match rest with
      | c1 :: c2 :: c3 :: r =>
          (0x90 ≤ c1 && c1 ≤ 0xBF) && isCont c2 && isCont c3 && validUtf8Fuel fuel r
      | _ => false
    else if 0xF1 ≤ b && b ≤ 0xF3 then
      match rest with
      | c1 :: c2 :: c3 :: r => isCont c1 && isCont c2 && isCont c3 && validUtf8Fuel fuel r
      | _ => false
    else if b == 0xF4 then
      match rest with
      | c1 :: c2 :: c3 :: r =>
          (0x80 ≤ c1 && c1 ≤ 0x8F) && isCont c2 && isCont c3 && validUtf8Fuel fuel r
      | _ => false
    else false

/-- UTF-8 validity of a byte list. -/
def validUtf8 (l : List Nat) : Bool := validUtf8Fuel l.length l

/-- Move std::string::String: a byte vector known to be valid UTF-8.
We keep only the bytes; validity is enforced at the single construction
site, stringUtf8. -/
structure MoveString where
  bytes : List Nat
deriving DecidableEq, Repr

/-- std::string::utf8: converts a byte vector to a String, aborting
(none) when the bytes are not valid UTF-8. -/
def stringUtf8 (l : List Nat) : Option MoveString :=
  if validUtf8 l then some ⟨l⟩ else none

/-- The Shipment struct of the contract (key, store). -/
structure Shipment where
  id : Nat
  shipment_id : MoveString
  ai_summary : MoveString
  confidence_score : Nat
  timestamp : Nat
  oracle_signature : List Nat
  oracle_address : Nat
deriving DecidableEq, Repr

/-- The ShipmentRegistry struct of the contract (key). Its only fields
are its UID and the owner recorded at module initialization; it holds no
shipment records. -/
structure ShipmentRegistry where
  id : Nat
  owner : Nat
deriving DecidableEq, Repr

/-- The two event structs emitted by the contract. -/
inductive LedgerEvent
  | shipmentCreated (shipment_id : MoveString) (timestamp : Nat)
  | shipmentUpdated (shipment_id : MoveString) (confidence_score : Nat)
      (timestamp : Nat) (oracle_address : Nat)
deriving DecidableEq, Repr

/-- Error code EInvalidConfidenceScore of the contract. -/
def EInvalidConfidenceScore : Nat := 1
/-- Error code EInvalidSignature of the contract (declared, never raised). -/
def EInvalidSignature : Nat := 2
/-- Error code EUnauthorized of the contract (declared, never raised). -/
def EUnauthorized : Nat := 3

/-- The ways a transaction against this module can fail. -/
inductive MoveAbort
  /-- assert! with code EInvalidConfidenceScore in the module itself. -/
  | invalidConfidenceScore
  /-- Abort raised inside std::string::utf8 on invalid UTF-8 bytes. -/
  | invalidUtf8
  /-- Sui runtime rejection: the sender passed an owned object it does
  not own (this happens before the Move function body runs). -/
  | objectNotOwnedBySender
deriving DecidableEq, Repr

/-- A Shipment object together with the address that owns it (the result
of transfer::transfer). -/
structure OwnedShipment where
  shipment : Shipment
  owner : Nat
deriving DecidableEq, Repr

/-- Global ledger state: fresh-UID counter, the shared registry object
(none before module initialization), all shipment objects in creation
order, and the emitted event stream in emission order. -/
structure LedgerState where
  nextId : Nat
  registry : Option ShipmentRegistry
  shipments : List OwnedShipment
  events : List LedgerEvent
deriving DecidableEq, Repr

/-- Module initializer init: runs exactly once at publication, creates
the ShipmentRegistry with the publisher as owner and shares it. -/
def init (sender : Nat) : LedgerState :=
  { nextId := 1
    registry := some { id := 0, owner := sender }
    shipments := []
    events := [] }

/-- Entry function oracle_update.  Mirrors the Move body statement by
statement: assert confidence_score <= 100, convert both byte vectors to
strings, read the clock, read the sender, build the Shipment with a
fresh UID, emit ShipmentUpdated, transfer the object to the sender. -/
def oracle_update (st : LedgerState) (shipment_id ai_summary : List Nat)
    (confidence_score : Nat) (oracle_signature : List Nat)
    (clock_ms : Nat) (sender : Nat) : Except MoveAbort LedgerState :=
  if confidence_score ≤ 100 then
    match stringUtf8 shipment_id with
    | none => .error .invalidUtf8
    | some shipment_id_str =>
      match stringUtf8 ai_summary with
      | none => .error .invalidUtf8
      | some ai_summary_str =>
        let timestamp := clock_ms
        let oracle_addr := sender
        let shipment : Shipment :=
          { id := st.nextId
            shipment_id := shipment_id_str
            ai_summary := ai_summary_str
            confidence_score := confidence_score
            timestamp := timestamp
            oracle_signature := oracle_signature
            oracle_address := oracle_addr }
        .ok { st with
              nextId := st.nextId + 1
              shipments := st.shipments ++ [⟨shipment, oracle_addr⟩]
              events := st.events ++
                [.shipmentUpdated shipment_id_str confidence_score timestamp oracle_addr] }
  else .error .invalidConfidenceScore

/-- Entry function create_shipment.  Same shape as oracle_update but the
signature field is set to the empty vector and the emitted event is
ShipmentCreated. -/
def create_shipment (st : LedgerState) (shipment_id ai_summary : List Nat)
    (confidence_score : Nat) (clock_ms : Nat) (sender : Nat) :
    Except MoveAbort LedgerState :=
  if confidence_score ≤ 100 then
    match stringUtf8 shipment_id with
    | none => .error .invalidUtf8
    | some shipment_id_str =>
      match stringUtf8 ai_summary with
      | none => .error .invalidUtf8
      | some ai_summary_str =>
        let timestamp := clock_ms
        let creator := sender
        let shipment : Shipment :=
          { id := st.nextId
            shipment_id := shipment_id_str
            ai_summary := ai_summary_str
            confidence_score := confidence_score
            timestamp := timestamp
            oracle_signature := []
            oracle_address := creator }
        .ok { st with
              nextId := st.nextId + 1
              shipments := st.shipments ++ [⟨shipment, creator⟩]
              events := st.events ++ [.shipmentCreated shipment_id_str timestamp] }
  else .error .invalidConfidenceScore

/-- The body of entry function update_shipment, acting on the single
Shipment passed by mutable reference.  Mirrors the Move body: assert
new_confidence <= 100, overwrite ai_summary, confidence_score,
timestamp, oracle_signature, oracle_address in order, then emit
ShipmentUpdated built from the updated fields.  Returns the updated
object and the emitted event. -/
def update_shipment (shipment : Shipment) (new_summary : List Nat)
    (new_confidence : Nat) (new_signature : List Nat)
    (clock_ms : Nat) (sender : Nat) :
    Except MoveAbort (Shipment × LedgerEvent) :=
  if new_confidence ≤ 100 then
    match stringUtf8 new_summary with
    | none => .error .invalidUtf8
    | some new_summary_str =>
      let sh :=
        { shipment with
          ai_summary := new_summary_str
          confidence_score := new_confidence
          timestamp := clock_ms
          oracle_signature := new_signature
          oracle_address := sender }
      .ok (sh, .shipmentUpdated sh.shipment_id new_confidence sh.timestamp sh.oracle_address)
  else .error .invalidConfidenceScore

/-- The transaction around update_shipment: Sui lets the call through
only if the sender owns the Shipment object it passes by mutable
reference (idx selects the object in the state); on success the object
is replaced in place and the emitted event is appended. -/
def update_shipment_entry (st : LedgerState) (idx : Nat)
    (new_summary : List Nat) (new_confidence : Nat) (new_signature : List Nat)
    (clock_ms : Nat) (sender : Nat) : Except MoveAbort LedgerState :=
  match st.shipments[idx]? with
  | none => .error .objectNotOwnedBySender
  | some os =>
    if os.owner = sender then
      match update_shipment os.shipment new_summary new_confidence new_signature
          clock_ms sender with
      | .error e => .error e
      | .ok (sh, ev) =>
        .ok { st with
              shipments := st.shipments.set idx ⟨sh, os.owner⟩
              events := st.events ++ [ev] }
    else .error .objectNotOwnedBySender

/-- Sui transaction semantics: a committed transaction replaces the
state, an aborted one leaves it exactly as before (no partial writes,
no events). -/
def runTx (st : LedgerState) (r : Except MoveAbort LedgerState) : LedgerState :=
  match r with
  | .ok st1 => st1
  | .error _ => st

/-- Accessor get_shipment_id. -/
def get_shipment_id (s : Shipment) : MoveString := s.shipment_id
/-- Accessor get_ai_summary. -/
def get_ai_summary (s : Shipment) : MoveString := s.ai_summary
/-- Accessor get_confidence_score. -/
def get_confidence_score (s : Shipment) : Nat := s.confidence_score
/-- Accessor get_timestamp. -/
def get_timestamp (s : Shipment) : Nat := s.timestamp
/-- Accessor get_oracle_address. -/
def get_oracle_address (s : Shipment) : Nat := s.oracle_address
/-- Accessor get_signature_length. -/
def get_signature_length (s : Shipment) : Nat := s.oracle_signature.length

/-- One committed transaction against the module. -/
inductive Step : LedgerState → LedgerState → Prop
  | oracle {st st1 : LedgerState} (sid summ : List Nat) (conf : Nat) (sig : List Nat)
      (clk sender : Nat)
      (h : oracle_update st sid summ conf sig clk sender = .ok st1) : Step st st1
  | create {st st1 : LedgerState} (sid summ : List Nat) (conf clk sender : Nat)
      (h : create_shipment st sid summ conf clk sender = .ok st1) : Step st st1
  | update {st st1 : LedgerState} (idx : Nat) (summ : List Nat) (conf : Nat)
      (sig : List Nat) (clk sender : Nat)
      (h : update_shipment_entry st idx summ conf sig clk sender = .ok st1) :
      Step st st1

/-- Ledger states reachable from module publication by committed
transactions. -/
inductive Reachable : LedgerState → Prop
  | init (sender : Nat) : Reachable (init sender)
  | step {st st1 : LedgerState} (h : Reachable st) (hs : Step st st1) : Reachable st1

/-- The state produced by a successful oracle_update. -/
def oracleUpdateState (st : LedgerState) (sid summ : List Nat) (conf : Nat)
    (sig : List Nat) (clk sender : Nat) : LedgerState :=
  { st with
    nextId := st.nextId + 1
    shipments := st.shipments ++
      [⟨{ id := st.nextId, shipment_id := ⟨sid⟩, ai_summary := ⟨summ⟩,
          confidence_score := conf, timestamp := clk,
          oracle_signature := sig, oracle_address := sender }, sender⟩]
    events := st.events ++ [.shipmentUpdated ⟨sid⟩ conf clk sender] }

/-- The state produced by a successful create_shipment. -/
def createShipmentState (st : LedgerState) (sid summ : List Nat) (conf : Nat)
    (clk sender : Nat) : LedgerState :=
  { st with
    nextId := st.nextId + 1
    shipments := st.shipments ++
      [⟨{ id := st.nextId, shipment_id := ⟨sid⟩, ai_summary := ⟨summ⟩,
          confidence_score := conf, timestamp := clk,
          oracle_signature := [], oracle_address := sender }, sender⟩]
    events := st.events ++ [.shipmentCreated ⟨sid⟩ clk] }

/-- The shipment produced by a successful update_shipment. -/
def updatedShipment (sh : Shipment) (ns : List Nat) (nc : Nat)
    (nsig : List Nat) (clk sender : Nat) : Shipment :=
  { sh with
    ai_summary := ⟨ns⟩
    confidence_score := nc
    timestamp := clk
    oracle_signature := nsig
    oracle_address := sender }

lemma oracle_update_ok_iff {st : LedgerState} {sid summ : List Nat} {conf : Nat}
    {sig : List Nat} {clk sender : Nat} {st1 : LedgerState} :
    oracle_update st sid summ conf sig clk sender = .ok st1 ↔
      conf ≤ 100 ∧ validUtf8 sid = true ∧ validUtf8 summ = true ∧
        st1 = oracleUpdateState st sid summ conf sig clk sender := by
  by_cases h1 : conf ≤ 100 <;> by_cases h2 : validUtf8 sid = true <;>
    by_cases h3 : validUtf8 summ = true <;>
      simp [oracle_update, stringUtf8, oracleUpdateState, h1, h2, h3, eq_comm]

lemma create_shipment_ok_iff {st : LedgerState} {sid summ : List Nat}
    {conf clk sender : Nat} {st1 : LedgerState} :
    create_shipment st sid summ conf clk sender = .ok st1 ↔
      conf ≤ 100 ∧ validUtf8 sid = true ∧ validUtf8 summ = true ∧
        st1 = createShipmentState st sid summ conf clk sender := by
  by_cases h1 : conf ≤ 100 <;> by_cases h2 : validUtf8 sid = true <;>
    by_cases h3 : validUtf8 summ = true <;>
      simp [create_shipment, stringUtf8, createShipmentState, h1, h2, h3, eq_comm]

lemma update_shipment_ok_iff {sh : Shipment} {ns : List Nat} {nc : Nat}
    {nsig : List Nat} {clk sender : Nat} {out : Shipment × LedgerEvent} :
    update_shipment sh ns nc nsig clk sender = .ok out ↔
      nc ≤ 100 ∧ validUtf8 ns = true ∧
        out = (updatedShipment sh ns nc nsig clk sender,
               .shipmentUpdated sh.shipment_id nc clk sender) := by
  by_cases h1 : nc ≤ 100 <;> by_cases h2 : validUtf8 ns = true <;>
    simp [update_shipment, stringUtf8, updatedShipment, h1, h2, eq_comm]

lemma update_shipment_entry_ok_iff {st : LedgerState} {idx : Nat}
    {ns : List Nat} {nc : Nat} {nsig : List Nat} {clk sender : Nat}
    {st1 : LedgerState} :
    update_shipment_entry st idx ns nc nsig clk sender = .ok st1 ↔
      ∃ os, st.shipments[idx]? = some os ∧ os.owner = sender ∧
        nc ≤ 100 ∧ validUtf8 ns = true ∧
        st1 = { st with
                shipments := st.shipments.set idx
                  ⟨updatedShipment os.shipment ns nc nsig clk sender, os.owner⟩
                events := st.events ++
                  [.shipmentUpdated os.shipment.shipment_id nc clk sender] } := by
  unfold update_shipment_entry
  cases hidx : st.shipments[idx]? with
  | none => simp [hidx]
  | some os =>
    by_cases hown : os.owner = sender
    · by_cases h1 : nc ≤ 100 <;> by_cases h2 : validUtf8 ns = true <;>
        simp [hidx, hown, update_shipment, stringUtf8, updatedShipment, h1, h2, eq_comm]
    · simp [hidx, hown]

lemma update_shipment_entry_registry {st : LedgerState} {idx : Nat}
    {ns : List Nat} {nc : Nat} {nsig : List Nat} {clk sender : Nat}
    {st1 : LedgerState}
    (h : update_shipment_entry st idx ns nc nsig clk sender = .ok st1) :
    st1.registry = st.registry := by
  obtain ⟨os, -, -, -, -, rfl⟩ := update_shipment_entry_ok_iff.mp h
  rfl

/-- A concrete state: the ledger right after publication (by address 0)
followed by one committed oracle_update for shipment id [83] by address 7. -/
def stAfterFirst : LedgerState :=
  runTx (init 0) (oracle_update (init 0) [83] [65] 50 [] 1000 7)

lemma stAfterFirst_reachable : Reachable stAfterFirst :=
  .step (.init 0) (.oracle [83] [65] 50 [] 1000 7 rfl)

/-- Does the transaction commit (true) or abort (false)? -/
def commits {α : Type} : Except MoveAbort α → Bool
  | .ok _ => true
  | .error _ => false

lemma oracle_update_commits_iff {st : LedgerState} {sid summ : List Nat}
    {conf : Nat} {sig : List Nat} {clk sender : Nat} :
    commits (oracle_update st sid summ conf sig clk sender) = true ↔
      conf ≤ 100 ∧ validUtf8 sid = true ∧ validUtf8 summ = true := by
  by_cases h1 : conf ≤ 100 <;> by_cases h2 : validUtf8 sid = true <;>
    by_cases h3 : validUtf8 summ = true <;>
      simp [oracle_update, stringUtf8, commits, h1, h2, h3]

lemma create_shipment_commits_iff {st : LedgerState} {sid summ : List Nat}
    {conf clk sender : Nat} :
    commits (create_shipment st sid summ conf clk sender) = true ↔
      conf ≤ 100 ∧ validUtf8 sid = true ∧ validUtf8 summ = true := by
  by_cases h1 : conf ≤ 100 <;> by_cases h2 : validUtf8 sid = true <;>
    by_cases h3 : validUtf8 summ = true <;>
      simp [create_shipment, stringUtf8, commits, h1, h2, h3]

lemma update_shipment_commits_iff {sh : Shipment} {ns : List Nat} {nc : Nat}
    {nsig : List Nat} {clk sender : Nat} :
    commits (update_shipment sh ns nc nsig clk sender) = true ↔
      nc ≤ 100 ∧ validUtf8 ns = true := by
  by_cases h1 : nc ≤ 100 <;> by_cases h2 : validUtf8 ns = true <;>
    simp [update_shipment, stringUtf8, commits, h1, h2]

lemma update_shipment_entry_commits_iff {st : LedgerState} {idx : Nat}
    {ns : List Nat} {nc : Nat} {nsig : List Nat} {clk sender : Nat} :
    commits (update_shipment_entry st idx ns nc nsig clk sender) = true ↔
      (∃ os, st.shipments[idx]? = some os ∧ os.owner = sender) ∧
        nc ≤ 100 ∧ validUtf8 ns = true := by
  unfold update_shipment_entry
  cases hidx : st.shipments[idx]? with
  | none => simp [hidx, commits]
  | some os =>
    by_cases hown : os.owner = sender
    · by_cases h1 : nc ≤ 100 <;> by_cases h2 : validUtf8 ns = true <;>
        simp [hidx, hown, update_shipment, stringUtf8, commits, h1, h2]
    · simp [hidx, hown, commits]

/-- A concrete Shipment object, as held by address 7. -/
def shDemo : Shipment :=
  { id := 1, shipment_id := ⟨[83]⟩, ai_summary := ⟨[65]⟩,
    confidence_score := 50, timestamp := 1000,
    oracle_signature := [], oracle_address := 7 }

/-- The result of a concrete successful update_shipment on shDemo. -/
def outDemo : Shipment × LedgerEvent :=
  (updatedShipment shDemo [66] 60 [7] 2000 9,
   .shipmentUpdated shDemo.shipment_id 60 2000 9)

/-- A concrete state: publication by address 0 followed by one committed
create_shipment for shipment id [84] by address 8. -/
def stAfterCreate : LedgerState :=
  runTx (init 0) (create_shipment (init 0) [84] [65] 70 1500 8)

/-- Every stored shipment has confidence_score at most 100. -/
def allConfidenceBounded (st : LedgerState) : Bool :=
  st.shipments.all (fun os => decide (os.shipment.confidence_score ≤ 100))

/-- C1: a submission with confidence_score outside [0,100] (as a u64,
that is a score above 100) is rejected by all three entry functions with
EInvalidConfidenceScore, and the aborted transaction leaves the ledger
state — records and event stream alike — exactly as it was. -/
theorem invalid_confidence_rejected_atomically
    (st : LedgerState) (sh : Shipment) (idx : Nat) (sid summ sig : List Nat)
    (conf clk sender : Nat) (h : 100 < conf) :
    oracle_update st sid summ conf sig clk sender = .error .invalidConfidenceScore ∧
    create_shipment st sid summ conf clk sender = .error .invalidConfidenceScore ∧
    update_shipment sh summ conf sig clk sender = .error .invalidConfidenceScore ∧
    runTx st (oracle_update st sid summ conf sig clk sender) = st ∧
    runTx st (create_shipment st sid summ conf clk sender) = st ∧
    runTx st (update_shipment_entry st idx summ conf sig clk sender) = st := by
  have hn : ¬ conf ≤ 100 := by omega
  refine ⟨?_, ?_, ?_, ?_, ?_, ?_⟩
  · simp [oracle_update, hn]
  · simp [create_shipment, hn]
  · simp [update_shipment, hn]
  · simp [oracle_update, hn, runTx]
  · simp [create_shipment, hn, runTx]
  · unfold update_shipment_entry
    cases hidx : st.shipments[idx]? with
    | none => simp [runTx]
    | some os =>
      by_cases hown : os.owner = sender <;>
        simp [hown, update_shipment, hn, runTx]

theorem invalid_confidence_rejected_atomically_witness :
    oracle_update (init 0) [83] [65] 101 [] 5 7 = .error .invalidConfidenceScore ∧
    runTx (init 0) (update_shipment_entry (init 0) 0 [65] 101 [] 5 7) = init 0 :=
  ⟨(invalid_confidence_rejected_atomically (init 0) shDemo 0 [83] [65] [] 101 5 7
      (by decide)).1,
   (invalid_confidence_rejected_atomically (init 0) shDemo 0 [83] [65] [] 101 5 7
      (by decide)).2.2.2.2.2⟩

/-- C2 counterexample: starting from a ledger that already holds a record
for shipment id [83], a second oracle_update submission with the same
shipment id commits (it is neither rejected nor deduplicated) and the
ledger afterwards holds two independent records for [83], with distinct
object ids. -/
theorem oracle_update_no_dedup_counterexample :
    stAfterFirst.shipments.map (fun os => os.shipment.shipment_id) = [⟨[83]⟩] ∧
    commits (oracle_update stAfterFirst [83] [66] 60 [] 2000 7) = true ∧
    (runTx stAfterFirst (oracle_update stAfterFirst [83] [66] 60 [] 2000 7)).shipments.map
        (fun os => os.shipment.shipment_id) = [⟨[83]⟩, ⟨[83]⟩] ∧
    (runTx stAfterFirst (oracle_update stAfterFirst [83] [66] 60 [] 2000 7)).shipments.map
        (fun os => os.shipment.id) = [1, 2] :=
  ⟨rfl, rfl, rfl, rfl⟩

/-- C2 amended: oracle_update performs no lookup and no deduplication at
all — every committed call appends one fresh record carrying the
submitted shipment_id and a fresh object id, whatever records (including
ones with the same shipment_id) already exist. -/
theorem oracle_update_always_appends
    (st : LedgerState) (sid summ : List Nat) (conf : Nat) (sig : List Nat)
    (clk sender : Nat) (st1 : LedgerState)
    (h : oracle_update st sid summ conf sig clk sender = .ok st1) :
    st1.shipments.length = st.shipments.length + 1 ∧
    ∃ s, st1.shipments = st.shipments ++ [⟨s, sender⟩] ∧
      s.shipment_id = ⟨sid⟩ ∧ s.id = st.nextId := by
  obtain ⟨-, -, -, rfl⟩ := oracle_update_ok_iff.mp h
  exact ⟨by simp [oracleUpdateState], ⟨_, rfl, rfl, rfl⟩⟩

theorem oracle_update_always_appends_witness :
    stAfterFirst.shipments.length = (init 0).shipments.length + 1 :=
  (oracle_update_always_appends (init 0) [83] [65] 50 [] 1000 7 stAfterFirst rfl).1

/-- C3 counterexample: the very first committed oracle_update (the
ledger holds no record at all beforehand) emits a ShipmentUpdated event
and no ShipmentCreated event. -/
theorem first_oracle_update_emits_updated_counterexample :
    (init 0).shipments = [] ∧
    oracle_update (init 0) [83] [65] 50 [] 1000 7 = .ok stAfterFirst ∧
    stAfterFirst.events = [.shipmentUpdated ⟨[83]⟩ 50 1000 7] :=
  ⟨rfl, rfl, rfl⟩

/-- C3 amended: every committed oracle_update — first-time or not —
emits exactly one ShipmentUpdated notification; the ShipmentCreated
notification carrying the shipment_id and timestamp is emitted exactly
by create_shipment. -/
theorem event_emission_by_entry
    (st st2 : LedgerState) (sid summ sid2 summ2 : List Nat) (conf : Nat)
    (sig : List Nat) (clk sender conf2 clk2 sender2 : Nat)
    (st1 st3 : LedgerState)
    (h1 : oracle_update st sid summ conf sig clk sender = .ok st1)
    (h2 : create_shipment st2 sid2 summ2 conf2 clk2 sender2 = .ok st3) :
    st1.events = st.events ++ [.shipmentUpdated ⟨sid⟩ conf clk sender] ∧
    st3.events = st2.events ++ [.shipmentCreated ⟨sid2⟩ clk2] := by
  obtain ⟨-, -, -, rfl⟩ := oracle_update_ok_iff.mp h1
  obtain ⟨-, -, -, rfl⟩ := create_shipment_ok_iff.mp h2
  exact ⟨rfl, rfl⟩

theorem event_emission_by_entry_witness :
    stAfterFirst.events = (init 0).events ++ [.shipmentUpdated ⟨[83]⟩ 50 1000 7] ∧
    stAfterCreate.events = (init 0).events ++ [.shipmentCreated ⟨[84]⟩ 1500] :=
  event_emission_by_entry (init 0) (init 0) [83] [65] [84] [65] 50 [] 1000 7 70 1500 8
    stAfterFirst stAfterCreate rfl rfl

/-- C4: on every reachable ledger state, every stored Shipment record
satisfies confidence_score at most 100 (and at least 0, since scores are
u64): each entry function checks the bound before writing. -/
theorem reachable_confidence_invariant (st : LedgerState) (h : Reachable st) :
    allConfidenceBounded st = true := by
  induction h with
  | init sender => rfl
  | step h hs ih =>
    cases hs with
    | oracle sid summ conf sig clk sender h1 =>
      obtain ⟨hc, -, -, rfl⟩ := oracle_update_ok_iff.mp h1
      simp only [allConfidenceBounded, oracleUpdateState, List.all_append] at *
      simp [ih, hc]
    | create sid summ conf clk sender h1 =>
      obtain ⟨hc, -, -, rfl⟩ := create_shipment_ok_iff.mp h1
      simp only [allConfidenceBounded, createShipmentState, List.all_append] at *
      simp [ih, hc]
    | update idx summ conf sig clk sender h1 =>
      obtain ⟨os, hidx, -, hc, -, rfl⟩ := update_shipment_entry_ok_iff.mp h1
      simp only [allConfidenceBounded, List.all_eq_true] at *
      intro x hx
      rcases List.mem_or_eq_of_mem_set hx with hmem | rfl
      · exact ih x hmem
      · simpa [updatedShipment] using hc

theorem reachable_confidence_invariant_witness :
    allConfidenceBounded stAfterFirst = true :=
  reachable_confidence_invariant stAfterFirst stAfterFirst_reachable

/-- C5: the timestamp stored by every committed submission or update is
exactly the value read from the ledger clock object, and the stored
oracle_address is exactly the transaction sender — both hold for every
choice of payload arguments, so neither can be forged in the payload. -/
theorem ledger_assigned_timestamp_and_sender
    (st st2 : LedgerState) (sh : Shipment)
    (sid summ sig sid2 summ2 ns nsig : List Nat)
    (conf clk sender conf2 clk2 sender2 nc clk3 sender3 : Nat)
    (st1 st3 : LedgerState) (out : Shipment × LedgerEvent)
    (h1 : oracle_update st sid summ conf sig clk sender = .ok st1)
    (h2 : create_shipment st2 sid2 summ2 conf2 clk2 sender2 = .ok st3)
    (h3 : update_shipment sh ns nc nsig clk3 sender3 = .ok out) :
    (∃ s, st1.shipments = st.shipments ++ [⟨s, sender⟩] ∧
       s.timestamp = clk ∧ s.oracle_address = sender) ∧
    (∃ s, st3.shipments = st2.shipments ++ [⟨s, sender2⟩] ∧
       s.timestamp = clk2 ∧ s.oracle_address = sender2) ∧
    (out.1.timestamp = clk3 ∧ out.1.oracle_address = sender3) := by
  obtain ⟨-, -, -, rfl⟩ := oracle_update_ok_iff.mp h1
  obtain ⟨-, -, -, rfl⟩ := create_shipment_ok_iff.mp h2
  obtain ⟨-, -, rfl⟩ := update_shipment_ok_iff.mp h3
  exact ⟨⟨_, rfl, rfl, rfl⟩, ⟨_, rfl, rfl, rfl⟩, rfl, rfl⟩

theorem ledger_assigned_timestamp_and_sender_witness :
    outDemo.1.timestamp = 2000 ∧ outDemo.1.oracle_address = 9 :=
  (ledger_assigned_timestamp_and_sender (init 0) (init 0) shDemo
    [83] [65] [] [84] [65] [66] [7] 50 1000 7 70 1500 8 60 2000 9
    stAfterFirst stAfterCreate outDemo rfl rfl rfl).2.2

/-- C6: round-trip — the record appended by a committed oracle_update,
read back through the contract accessors, returns exactly the submitted
shipment_id, summary and confidence_score; the submitted signature bytes
are retained verbatim; timestamp and oracle_address are the
ledger-assigned clock value and sender. -/
theorem oracle_update_roundtrip
    (st : LedgerState) (sid summ : List Nat) (conf : Nat) (sig : List Nat)
    (clk sender : Nat) (st1 : LedgerState)
    (h : oracle_update st sid summ conf sig clk sender = .ok st1) :
    ∃ s, st1.shipments = st.shipments ++ [⟨s, sender⟩] ∧
      get_shipment_id s = ⟨sid⟩ ∧ get_ai_summary s = ⟨summ⟩ ∧
      get_confidence_score s = conf ∧ s.oracle_signature = sig ∧
      get_signature_length s = sig.length ∧
      get_timestamp s = clk ∧ get_oracle_address s = sender := by
  obtain ⟨-, -, -, rfl⟩ := oracle_update_ok_iff.mp h
  exact ⟨_, rfl, rfl, rfl, rfl, rfl, rfl, rfl, rfl⟩

theorem oracle_update_roundtrip_witness :
    stAfterFirst.shipments.map (fun os => get_confidence_score os.shipment) = [50] := by
  obtain ⟨s, hs, -, -, hconf, -, -, -, -⟩ :=
    oracle_update_roundtrip (init 0) [83] [65] 50 [] 1000 7 stAfterFirst rfl
  rw [hs]
  simp [init, hconf]

/-- C7: frame property of update_shipment — a committed call overwrites
exactly ai_summary, confidence_score, oracle_signature, timestamp and
oracle_address with the new values, leaves the object id and the
shipment_id untouched, and emits a ShipmentUpdated event carrying the
unchanged shipment_id and the new confidence, timestamp and address. -/
theorem update_shipment_frame
    (sh : Shipment) (ns : List Nat) (nc : Nat) (nsig : List Nat)
    (clk sender : Nat) (out : Shipment × LedgerEvent)
    (h : update_shipment sh ns nc nsig clk sender = .ok out) :
    out.1.id = sh.id ∧ out.1.shipment_id = sh.shipment_id ∧
    out.1.ai_summary = ⟨ns⟩ ∧ out.1.confidence_score = nc ∧
    out.1.oracle_signature = nsig ∧ out.1.timestamp = clk ∧
    out.1.oracle_address = sender ∧
    out.2 = .shipmentUpdated sh.shipment_id nc clk sender := by
  obtain ⟨-, -, rfl⟩ := update_shipment_ok_iff.mp h
  exact ⟨rfl, rfl, rfl, rfl, rfl, rfl, rfl, rfl⟩

theorem update_shipment_frame_witness :
    outDemo.1.id = shDemo.id ∧ outDemo.1.shipment_id = shDemo.shipment_id :=
  ⟨(update_shipment_frame shDemo [66] 60 [7] 2000 9 outDemo rfl).1,
   (update_shipment_frame shDemo [66] 60 [7] 2000 9 outDemo rfl).2.1⟩

/-- C8: the contract never inspects the embedded signature — whether a
submission or update commits is unchanged when the signature bytes are
replaced by any other bytes, every committed operation stores the given
bytes verbatim, and an update commits exactly when the caller presents a
shipment object it owns (with a valid confidence and summary), with no
condition on the signature at all. -/
theorem no_signature_verification
    (st : LedgerState) (sh : Shipment) (idx : Nat)
    (sid summ sig sig2 ns : List Nat) (conf clk sender nc : Nat) :
    (commits (oracle_update st sid summ conf sig clk sender) =
       commits (oracle_update st sid summ conf sig2 clk sender)) ∧
    (∀ st1, oracle_update st sid summ conf sig clk sender = .ok st1 →
       ∃ s, st1.shipments = st.shipments ++ [⟨s, sender⟩] ∧
         s.oracle_signature = sig) ∧
    (commits (update_shipment sh ns nc sig clk sender) =
       commits (update_shipment sh ns nc sig2 clk sender)) ∧
    (∀ out, update_shipment sh ns nc sig clk sender = .ok out →
       out.1.oracle_signature = sig) ∧
    (commits (update_shipment_entry st idx ns nc sig clk sender) = true ↔
       (∃ os, st.shipments[idx]? = some os ∧ os.owner = sender) ∧
         nc ≤ 100 ∧ validUtf8 ns = true) := by
  refine ⟨?_, ?_, ?_, ?_, update_shipment_entry_commits_iff⟩
  · by_cases h1 : conf ≤ 100 <;> by_cases h2 : validUtf8 sid = true <;>
      by_cases h3 : validUtf8 summ = true <;>
        simp [oracle_update, stringUtf8, commits, h1, h2, h3]
  · intro st1 h
    obtain ⟨-, -, -, rfl⟩ := oracle_update_ok_iff.mp h
    exact ⟨_, rfl, rfl⟩
  · by_cases h1 : nc ≤ 100 <;> by_cases h2 : validUtf8 ns = true <;>
      simp [update_shipment, stringUtf8, commits, h1, h2]
  · intro out h
    obtain ⟨-, -, rfl⟩ := update_shipment_ok_iff.mp h
    rfl

theorem no_signature_verification_witness :
    commits (oracle_update (init 0) [83] [65] 50 [9, 9] 1000 7) =
      commits (oracle_update (init 0) [83] [65] 50 [] 1000 7) :=
  (no_signature_verification (init 0) shDemo 0 [83] [65] [9, 9] [] [66] 50 1000 7 60).1

/-- C9: the registry is the genesis object: every reachable state holds
exactly the shared ShipmentRegistry created by the module initializer
(UID 0, owner fields exactly as set at publication), and no committed
transaction ever changes it — records live outside it. -/
theorem registry_unique_immutable (st : LedgerState) (h : Reachable st) :
    (∃ d, st.registry = some { id := 0, owner := d }) ∧
    ∀ st1, Step st st1 → st1.registry = st.registry := by
  have hstep : ∀ {s s1 : LedgerState}, Step s s1 → s1.registry = s.registry := by
    intro s s1 hs
    cases hs with
    | oracle sid summ conf sig clk sender h1 =>
      obtain ⟨-, -, -, rfl⟩ := oracle_update_ok_iff.mp h1
      rfl
    | create sid summ conf clk sender h1 =>
      obtain ⟨-, -, -, rfl⟩ := create_shipment_ok_iff.mp h1
      rfl
    | update idx summ conf sig clk sender h1 =>
      exact update_shipment_entry_registry h1
  refine ⟨?_, fun st1 hs => hstep hs⟩
  induction h with
  | init sender => exact ⟨sender, rfl⟩
  | step h hs ih => rw [hstep hs]; exact ih

theorem registry_unique_immutable_witness :
    stAfterFirst.registry.isSome = true := by
  obtain ⟨⟨d, hd⟩, -⟩ := registry_unique_immutable stAfterFirst stAfterFirst_reachable
  rw [hd]
  rfl

/-- C10: totality at the public interface — each entry function commits
exactly when the confidence score is at most 100 and every byte vector
converted to a string is valid UTF-8; when the confidence guard passes
but a vector is invalid UTF-8, the call aborts inside the string
conversion (invalidUtf8), a failure path distinct from the contract's
own assert. -/
theorem entry_totality
    (st : LedgerState) (sh : Shipment) (sid summ sig ns nsig : List Nat)
    (conf clk sender nc : Nat) :
    (commits (oracle_update st sid summ conf sig clk sender) = true ↔
       conf ≤ 100 ∧ validUtf8 sid = true ∧ validUtf8 summ = true) ∧
    (commits (create_shipment st sid summ conf clk sender) = true ↔
       conf ≤ 100 ∧ validUtf8 sid = true ∧ validUtf8 summ = true) ∧
    (commits (update_shipment sh ns nc nsig clk sender) = true ↔
       nc ≤ 100 ∧ validUtf8 ns = true) ∧
    (conf ≤ 100 → validUtf8 sid = false ∨ validUtf8 summ = false →
       oracle_update st sid summ conf sig clk sender = .error .invalidUtf8) ∧
    (conf ≤ 100 → validUtf8 sid = false ∨ validUtf8 summ = false →
       create_shipment st sid summ conf clk sender = .error .invalidUtf8) ∧
    (nc ≤ 100 → validUtf8 ns = false →
       update_shipment sh ns nc nsig clk sender = .error .invalidUtf8) := by
  refine ⟨oracle_update_commits_iff, create_shipment_commits_iff,
    update_shipment_commits_iff, ?_, ?_, ?_⟩
  · intro h1 h2
    rcases h2 with h2 | h2 <;>
      by_cases h3 : validUtf8 sid = true <;> by_cases h4 : validUtf8 summ = true <;>
        simp_all [oracle_update, stringUtf8, h1]
  · intro h1 h2
    rcases h2 with h2 | h2 <;>
      by_cases h3 : validUtf8 sid = true <;> by_cases h4 : validUtf8 summ = true <;>
        simp_all [create_shipment, stringUtf8, h1]
  · intro h1 h2
    simp [update_shipment, stringUtf8, h1, h2]

theorem entry_totality_witness :
    commits (oracle_update (init 0) [83] [65] 50 [] 1000 7) = true ∧
    oracle_update (init 0) [0xFF] [65] 50 [] 1000 7 = .error .invalidUtf8 :=
  ⟨(entry_totality (init 0) shDemo [83] [65] [] [66] [] 50 1000 7 60).1.mpr
      (by refine ⟨by decide, by decide, by decide⟩),
   (entry_totality (init 0) shDemo [0xFF] [65] [] [66] [] 50 1000 7 60).2.2.2.1
      (by decide) (Or.inl (by decide))⟩

end SupplyChain
